import Mathlib

/-!
Verification development for the example-helloworld repository
(`src/program-rust/src/lib.rs`).

The repository contains a single on-ledger program, `process_instruction`,
which reads the first byte of the data of the account at index 1 and logs it,
plus a test harness that drives a simulated ledger ("Execution Environment",
the external `solana-program-test` crate) through upgradeable-program
deployment scenarios.

The shallow embedding below translates:
  * the instruction handler `process_instruction` directly from the source;
  * the test-harness account constructors (`upgradeable_program_account`,
    `program_data_account`, `set_non_upgradeable_program_account`) directly
    from the source;
  * the Execution Environment (account set, slot, program-visibility rules)
    from the specification's contract, since that code lives outside the
    repository (see the doc comments marked "Modelled from the spec").

Bytes are modelled as `Nat` (the source's `u8` values are always < 256),
addresses (`Pubkey`) as `Nat`, byte buffers as `List Nat`.
-/

namespace HelloWorld

/-- Little-endian base-256 encoding of `n` into exactly `k` bytes
(bincode's fixed-width integer encoding, truncating like the source's `u64`). -/
def natToBytesLE : Nat → Nat → List Nat
  | 0, _ => []
  | k + 1, n => n % 256 :: natToBytesLE k (n / 256)

/-- Little-endian decoding of a byte list back to a natural number. -/
def bytesToNatLE : List Nat → Nat
  | [] => 0
  | b :: bs => b + 256 * bytesToNatLE bs

/-- bincode encoding of a `u64` value (8 bytes, little endian). -/
def u64le (n : Nat) : List Nat := natToBytesLE 8 n

/-- Modelled from the spec: the system program's identifier (owner of plain,
freshly created accounts). Addresses are abstract `Nat` identifiers; only
distinctness matters. -/
def system_program_id : Nat := 0

/-- Modelled from the spec: the non-upgradeable BPF loader's identifier
(`bpf_loader::id()` in the source). -/
def bpf_loader_id : Nat := 2

/-- Modelled from the spec: the upgradeable BPF loader's identifier
(`bpf_loader_upgradeable::id()` in the source). -/
def bpf_loader_upgradeable_id : Nat := 3

/-- One ledger account, translated from `solana_sdk::account::Account` as the
source constructs it: lamport balance, data bytes, owner, executable flag and
rent epoch. -/
structure Account where
  lamports : Nat
  data : List Nat
  owner : Nat
  executable : Bool
  rent_epoch : Nat
deriving DecidableEq

/-- Failure outcomes of the modelled environment and handler, per the spec's
error taxonomy (§7): an out-of-range account or byte index aborts the
transaction; `warp_to_slot` to a non-increasing slot fails; executing an
address that does not resolve to a visible program fails. -/
inductive TxErr where
  | indexOutOfRange
  | programMissing
  | slotNotAdvancing
deriving DecidableEq

/-- The log line `msg!("Hello World Rust program entrypoint {}", b)` produces. -/
def msgLine (b : Nat) : String :=
  "Hello World Rust program entrypoint " ++ toString b

/-- The program entrypoint, translated from `process_instruction` in
`src/program-rust/src/lib.rs` (lines 9-20): it indexes `accounts[1]`, then
byte `[0]` of that account's data, and logs the byte. Rust's panicking
indexing is modelled as an `indexOutOfRange` transaction failure; otherwise
the handler logs one line and returns `Ok(())`. -/
def process_instruction (_program_id : Nat) (accounts : List Account)
    (_instruction_data : List Nat) : Except TxErr (List String) :=
  match accounts[1]? with
  | none => .error .indexOutOfRange
  | some a =>
    match a.data[0]? with
    | none => .error .indexOutOfRange
    | some b => .ok [msgLine b]

/-- Modelled from the spec: `UpgradeableLoaderState::size_of_program()` from
the external SDK, the spec's `PROGRAM_RECORD_SIZE` constant: a 4-byte bincode
enum tag plus a 32-byte address. -/
def size_of_program : Nat := 36

/-- Modelled from the spec: `UpgradeableLoaderState::size_of_programdata_metadata()`
from the external SDK, the spec's `PROGRAM_DATA_HEADER_SIZE` constant: a
4-byte bincode enum tag, an 8-byte slot, and a 33-byte optional authority. -/
def size_of_programdata_metadata : Nat := 45

/-- Modelled from the spec: `Rent::default().minimum_balance(data_len)` of the
external SDK, the injectable rent-pricing policy of §4.1. The default rent is
3480 lamports per byte-year with a 2-year exemption threshold and a 128-byte
account overhead, hence `(128 + data_len) * 6960`. -/
def minimum_balance (data_len : Nat) : Nat := (128 + data_len) * 6960

/-- The fixed-size ProgramAccount payload: bincode serialization of
`UpgradeableLoaderState::Program { programdata_address }` (variant tag 2)
padded to `size_of_program` bytes, as `upgradeable_program_account` in the
source builds it via `set_state` into a zeroed buffer. -/
def encode_program (programdata_address : Nat) : List Nat :=
  [2, 0, 0, 0] ++ natToBytesLE 32 programdata_address

/-- The ProgramData metadata header: bincode serialization of
`UpgradeableLoaderState::ProgramData { slot, upgrade_authority_address }`
(variant tag 3) padded with zeroes to `size_of_programdata_metadata` bytes,
as `program_data_account` in the source builds it via `set_state` into a
zeroed buffer. -/
def program_data_header (slot : Nat) (upgrade_authority_address : Option Nat) :
    List Nat :=
  [3, 0, 0, 0] ++ u64le slot ++
    (match upgrade_authority_address with
      | none => 0 :: List.replicate 32 0
      | some a => 1 :: natToBytesLE 32 a)

/-- The full ProgramData payload: metadata header followed by the program
bytes unmodified (the source zeroes a buffer of
`size_of_programdata_metadata() + program_data.len()` bytes, serializes the
header into its front, and copies the program bytes after the header). -/
def encode_program_data (slot : Nat) (upgrade_authority_address : Option Nat)
    (program_bytes : List Nat) : List Nat :=
  program_data_header slot upgrade_authority_address ++ program_bytes

/-- Translated from `upgradeable_program_account` in the source (lines
218-236): an executable account owned by the upgradeable loader whose data is
the serialized `Program` record pointing at `program_data_address`. -/
def upgradeable_program_account (program_data_address : Nat) : Account :=
  { lamports := Nat.max (minimum_balance size_of_program) 1
    data := encode_program program_data_address
    owner := bpf_loader_upgradeable_id
    executable := true
    rent_epoch := 0 }

/-- Translated from `program_data_account` in the source (lines 238-263): an
executable account owned by the upgradeable loader whose data is the
`ProgramData` header (deployment slot, no upgrade authority) followed by the
program bytes read from the fixture file. -/
def program_data_account (program_data : List Nat) (slot : Nat) : Account :=
  { lamports := Nat.max (minimum_balance (size_of_programdata_metadata + program_data.length)) 1
    data := encode_program_data slot none program_data
    owner := bpf_loader_upgradeable_id
    executable := true
    rent_epoch := 0 }

/-- Modelled from the spec (§6): the Execution Environment's state, explicit
context threaded through every call (§9): the current account set, the current
logical slot, and the cache of executable program bytes that are currently
visible per program address (§4.4 rule 1: the environment "caches/validates
executable account state"; rule 3: a not-yet-effective upgrade leaves the
previously visible version executing). -/
structure Ctx where
  slot : Nat
  accounts : List (Nat × Account)
  cache : List (Nat × List Nat)
deriving DecidableEq

/-- Modelled from the spec: `ProgramTest::default().start_with_context()`.
The environment starts at slot 1 (the first slot after genesis), with an empty
injected-account set and an empty program cache. Slot 1 is forced by the
spec's scenarios: a version deployed at slot 0 is already visible at start,
and a version tagged slot 1 is not. -/
def start_with_context : Ctx :=
  { slot := 1, accounts := [], cache := [] }

/-- Modelled from the spec (§6 `set_account`): upserts an account's full
state. The account set is an association list; the most recent binding for an
address wins. -/
def set_account (ctx : Ctx) (address : Nat) (a : Account) : Ctx :=
  { ctx with accounts := (address, a) :: ctx.accounts }

/-- Modelled from the spec (§6 `advance_slot`, the source's `warp_to_slot`):
monotonically increases the logical slot; fails with `SlotNotAdvancing` if
the target is not strictly greater than the current slot. -/
def warp_to_slot (ctx : Ctx) (target : Nat) : Except TxErr Ctx :=
  if ctx.slot < target then .ok { ctx with slot := target }
  else .error .slotNotAdvancing

/-- Decodes a ProgramAccount payload back to its `programdata_address`
(inverse of `encode_program`); fails on a wrong length or tag
(the spec's `MalformedLayout`). -/
def decode_program (data : List Nat) : Option Nat :=
  if data.length = size_of_program ∧ data.take 4 = [2, 0, 0, 0] then
    some (bytesToNatLE (data.drop 4))
  else none

/-- Decodes a ProgramData payload to its deployment slot and program bytes
(inverse of `encode_program_data`, ignoring the authority field); fails on a
short payload or wrong tag (the spec's `MalformedLayout`). -/
def decode_program_data (data : List Nat) : Option (Nat × List Nat) :=
  if size_of_programdata_metadata ≤ data.length ∧ data.take 4 = [3, 0, 0, 0] then
    some (bytesToNatLE ((data.drop 4).take 8), data.drop size_of_programdata_metadata)
  else none

/-- Modelled from the spec (§4.4, §9): the program bytes that actually execute
for `programId` at the environment's current state. The program account is
looked up in the current account set at execution time (address indirection is
never cached). For an upgradeable program, the pointed-to ProgramData's
version is effective only when the current slot is strictly past its recorded
deployment slot (rules 3-4); otherwise the previously visible (cached) version
executes. For a non-upgradeable program, the bytes cached at first execution
stay visible; a direct payload overwrite is never observed (rule 1). -/
def visible_program_bytes (ctx : Ctx) (programId : Nat) : Option (List Nat) :=
  match List.lookup programId ctx.accounts with
  | none => none
  | some a =>
    if a.executable = true then
      if a.owner = bpf_loader_upgradeable_id then
        match decode_program a.data with
        | none => none
        | some pdAddr =>
          match List.lookup pdAddr ctx.accounts with
          | none => none
          | some pd =>
            match decode_program_data pd.data with
            | none => none
            | some (dslot, bytes) =>
              if dslot < ctx.slot then some bytes
              else List.lookup programId ctx.cache
      else if a.owner = bpf_loader_id then
        match List.lookup programId ctx.cache with
        | some cached => some cached
        | none => some a.data
      else none
    else none

/-- A nonexistent referenced account, as the runtime presents it to a program:
no lamports, empty data, system-owned, not executable. -/
def default_account : Account :=
  { lamports := 0, data := [], owner := system_program_id
    executable := false, rent_epoch := 0 }

/-- The account state a transaction's account reference resolves to: the
current account set's entry, or an empty system account when absent. Resolved
fresh at execution time, so non-program payload mutations are immediately
visible (§4.4 rule 6). -/
def resolve_account (ctx : Ctx) (address : Nat) : Account :=
  (List.lookup address ctx.accounts).getD default_account

/-- Modelled from the spec (§8): the fixture binary `helloworld0.so`,
abstracted as the byte payload `[0]`; executing it logs its first byte, 0. -/
def helloworld0_so : List Nat := [0]

/-- Modelled from the spec (§8): the fixture binary `helloworld1.so`,
abstracted as the byte payload `[1]`; executing it logs its first byte, 1. -/
def helloworld1_so : List Nat := [1]

/-- Modelled from the spec: the fixture binary `helloworld.so`, the compiled
form of this repository's `process_instruction`; abstracted as a distinct
two-byte payload (its exact bytes are irrelevant, only that `run_program`
recognises them and dispatches to `process_instruction`). -/
def helloworld_so : List Nat := [104, 119]

/-- Modelled from the spec: executing a resolved program binary. The
repository's own binary `helloworld.so` runs `process_instruction`; the
version fixtures of §8 are byte payloads whose execution logs their first
byte (so `[0]` logs "... entrypoint 0" and `[1]` logs "... entrypoint 1"). -/
def run_program (bytes : List Nat) (programId : Nat) (accounts : List Account)
    (instructionData : List Nat) : Except TxErr (List String) :=
  if bytes = helloworld_so then
    process_instruction programId accounts instructionData
  else
    match bytes[0]? with
    | some b => .ok [msgLine b]
    | none => .error .programMissing

/-- Modelled from the spec (§6 `execute`): executes a transaction built from a
program address, an ordered list of account references and (unused)
instruction bytes. The executed program is resolved through
`visible_program_bytes` (and the bytes that ran are cached for the program
address); the referenced accounts are resolved fresh from the current account
set. On success the simulation log is the invoke line followed by the
program's log lines, each with the runtime's "Program log: " marker, so
`logs[1]` is the handler's first log line as in the source's assertions. -/
def execute_transaction (ctx : Ctx) (programId : Nat) (metas : List Nat)
    (instructionData : List Nat) : Except TxErr (List String) × Ctx :=
  match visible_program_bytes ctx programId with
  | none => (.error .programMissing, ctx)
  | some bytes =>
    let ctx2 := { ctx with cache := (programId, bytes) :: ctx.cache }
    match run_program bytes programId (metas.map (resolve_account ctx)) instructionData with
    | .error e => (.error e, ctx2)
    | .ok lines => (.ok ("Program invoke" :: lines.map (fun s => "Program log: " ++ s)), ctx2)

/-- Translated from `simulate_transaction` in the source (lines 265-281): a
transaction on `program_id` whose single account reference is `program_id`
itself, with empty instruction data. -/
def simulate_transaction (ctx : Ctx) (programId : Nat) :
    Except TxErr (List String) × Ctx :=
  execute_transaction ctx programId [programId] []

/-- Translated from `simulate_transaction_with_account` in the source (lines
283-303): a transaction on `program_id` referencing `program_id` at index 0
and `account_address` at index 1, with empty instruction data. -/
def simulate_transaction_with_account (ctx : Ctx) (programId : Nat)
    (account_address : Nat) : Except TxErr (List String) × Ctx :=
  execute_transaction ctx programId [programId, account_address] []

/-- Translated from `set_non_upgradeable_program_account` in the source
(lines 63-80): upserts an executable account owned by the non-upgradeable
loader whose data is the program bytes directly. -/
def set_non_upgradeable_program_account (ctx : Ctx) (programId : Nat)
    (program_data : List Nat) : Ctx :=
  set_account ctx programId
    { lamports := Nat.max (minimum_balance program_data.length) 1
      data := program_data
      owner := bpf_loader_id
      executable := true
      rent_epoch := 0 }

/-- The scenario of `test_set_non_upgradeable_program_account_does_not_work`
up to the claim's query point: deploy `helloworld0.so` as a non-upgradeable
program, execute, overwrite the same address with `helloworld1.so`, and
execute again immediately, with no slot advance. Returns the `logs[1]` line
of each execution. -/
def scenario_set_non_upgradeable_program_account :
    Except TxErr (List String) := do
  let programId := 100
  let ctx := start_with_context
  let ctx := set_non_upgradeable_program_account ctx programId helloworld0_so
  let (r1, ctx) := simulate_transaction ctx programId
  let logs1 ← r1
  let ctx := set_non_upgradeable_program_account ctx programId helloworld1_so
  let (r2, _) := simulate_transaction ctx programId
  let logs2 ← r2
  pure [logs1.getD 1 "", logs2.getD 1 ""]

/-- The scenario of
`test_upgradeable_program_account_set_program_data_account_data_works`
(lines 83-117): inject a ProgramAccount for `program_id` pointing at a
ProgramData holding `helloworld0.so` at slot 0, execute; replace the
ProgramData payload with `helloworld1.so` at slot 1, warp to slot 2, execute.
Returns the `logs[1]` line of each execution. -/
def scenario_upgradeable_set_program_data_account_data :
    Except TxErr (List String) := do
  let programId := 100
  let programDataAddress := 101
  let ctx := start_with_context
  let ctx := set_account ctx programId (upgradeable_program_account programDataAddress)
  let ctx := set_account ctx programDataAddress (program_data_account helloworld0_so 0)
  let (r1, ctx) := simulate_transaction ctx programId
  let logs1 ← r1
  let ctx := set_account ctx programDataAddress (program_data_account helloworld1_so 1)
  let ctx ← warp_to_slot ctx 2
  let (r2, _) := simulate_transaction ctx programId
  let logs2 ← r2
  pure [logs1.getD 1 "", logs2.getD 1 ""]

/-- The §8 byte round-trip scenario with the execution the claim requires
between payload replacement and slot advance: deploy V0 at slot 0, execute;
replace the ProgramData payload with V1 tagged slot 1 and execute immediately
(environment still at slot 1); then warp to slot 2 and execute again.
Returns the `logs[1]` line of the three executions. -/
def scenario_upgradeable_set_program_data_then_execute_immediately :
    Except TxErr (List String) := do
  let programId := 100
  let programDataAddress := 101
  let ctx := start_with_context
  let ctx := set_account ctx programId (upgradeable_program_account programDataAddress)
  let ctx := set_account ctx programDataAddress (program_data_account helloworld0_so 0)
  let (r1, ctx) := simulate_transaction ctx programId
  let logs1 ← r1
  let ctx := set_account ctx programDataAddress (program_data_account helloworld1_so 1)
  let (r2, ctx) := simulate_transaction ctx programId
  let logs2 ← r2
  let ctx ← warp_to_slot ctx 2
  let (r3, _) := simulate_transaction ctx programId
  let logs3 ← r3
  pure [logs1.getD 1 "", logs2.getD 1 "", logs3.getD 1 ""]

/-- The scenario of
`test_upgradeable_program_account_set_program_data_account_address_works`
(lines 120-161): deploy `helloworld1.so` under a ProgramData at slot 0,
execute; warp to slot 2, re-point the ProgramAccount at a fresh ProgramData
address holding the earlier version `helloworld0.so` tagged at slot 2, warp
to slot 3, execute. Returns the `logs[1]` line of each execution. -/
def scenario_upgradeable_set_program_data_account_address :
    Except TxErr (List String) := do
  let programId := 100
  let programDataAddress := 101
  let ctx := start_with_context
  let ctx := set_account ctx programId (upgradeable_program_account programDataAddress)
  let ctx := set_account ctx programDataAddress (program_data_account helloworld1_so 0)
  let (r1, ctx) := simulate_transaction ctx programId
  let logs1 ← r1
  let ctx ← warp_to_slot ctx 2
  let programDataAddress2 := 102
  let ctx := set_account ctx programId (upgradeable_program_account programDataAddress2)
  let ctx := set_account ctx programDataAddress2 (program_data_account helloworld0_so 2)
  let ctx ← warp_to_slot ctx 3
  let (r2, _) := simulate_transaction ctx programId
  let logs2 ← r2
  pure [logs1.getD 1 "", logs2.getD 1 ""]

/-- The scenario of `test_set_non_program_account_works` (lines 163-216), with
the target account having the attributes the claim states (a plain account:
not executable, not loader-owned): deploy this repository's handler under the
upgradeable layout, inject a plain account with payload `[123]`, execute the
two-account transaction; overwrite the payload to `[234]` with no slot
change, execute again. Returns the `logs[1]` line of each execution. -/
def scenario_set_non_program_account : Except TxErr (List String) := do
  let programId := 100
  let programDataAddress := 101
  let accountAddress := 103
  let ctx := start_with_context
  let ctx := set_account ctx programId (upgradeable_program_account programDataAddress)
  let ctx := set_account ctx programDataAddress (program_data_account helloworld_so 0)
  let ctx := set_account ctx accountAddress
    { lamports := Nat.max (minimum_balance 1) 1, data := [123]
      owner := system_program_id, executable := false, rent_epoch := 0 }
  let (r1, ctx) := simulate_transaction_with_account ctx programId accountAddress
  let logs1 ← r1
  let ctx := set_account ctx accountAddress
    { lamports := Nat.max (minimum_balance 1) 1, data := [234]
      owner := system_program_id, executable := false, rent_epoch := 0 }
  let (r2, _) := simulate_transaction_with_account ctx programId accountAddress
  let logs2 ← r2
  pure [logs1.getD 1 "", logs2.getD 1 ""]

/-- `natToBytesLE` always produces exactly `k` bytes. -/
lemma natToBytesLE_length (k n : Nat) : (natToBytesLE k n).length = k := by
  induction k generalizing n with
  | zero => rfl
  | succ k ih => simp [natToBytesLE, ih]

/-- A `u64` encodes to exactly 8 bytes. -/
lemma u64le_length (n : Nat) : (u64le n).length = 8 :=
  natToBytesLE_length 8 n

/-- The ProgramData metadata header has exactly
`size_of_programdata_metadata` bytes, for either authority shape. -/
lemma program_data_header_length (slot : Nat) (auth : Option Nat) :
    (program_data_header slot auth).length = size_of_programdata_metadata := by
  cases auth <;>
    simp [program_data_header, u64le_length, natToBytesLE_length,
      size_of_programdata_metadata]

/-- Claim C1: for the upgradeable path, after injecting a ProgramAccount for
`program_id` pointing at a ProgramData holding version V0 tagged with
deployment slot 0, executing yields V0's log output; after replacing that
ProgramData payload with V1 tagged at slot 1 and advancing the environment to
slot 2 (past V1's deployment slot), executing yields V1's log output. -/
theorem upgrade_visible_after_slot_advance :
    scenario_upgradeable_set_program_data_account_data =
      .ok ["Program log: Hello World Rust program entrypoint 0",
        "Program log: Hello World Rust program entrypoint 1"] := by
  rfl

/-- Claim C2: replacing the ProgramData payload with V1 tagged at slot 1
without advancing the slot, then executing immediately, still returns V0's
output; only after the environment's slot passes V1's recorded deployment
slot does executing return V1's output. -/
theorem upgrade_invisible_before_slot_advance :
    scenario_upgradeable_set_program_data_then_execute_immediately =
      .ok ["Program log: Hello World Rust program entrypoint 0",
        "Program log: Hello World Rust program entrypoint 0",
        "Program log: Hello World Rust program entrypoint 1"] := by
  rfl

/-- Claim C3: overwriting a NonUpgradeableProgramAccount's payload in place
(same address, new program bytes) while the environment has not advanced its
slot, then querying immediately, does not make the new bytes observable: the
previously visible version's output is logged by both executions. -/
theorem non_upgradeable_overwrite_not_observable :
    scenario_set_non_upgradeable_program_account =
      .ok ["Program log: Hello World Rust program entrypoint 0",
        "Program log: Hello World Rust program entrypoint 0"] := by
  rfl

/-- Claim C4: re-pointing the ProgramAccount at `program_id` to an entirely
new ProgramData address holding a version tagged at the current slot, then
advancing the environment's slot, makes the new address's version execute; in
particular pointing at an address holding the earlier version V0 after having
run V1 rolls the observable output back to V0's. -/
theorem repoint_program_data_address_rolls_back :
    scenario_upgradeable_set_program_data_account_address =
      .ok ["Program log: Hello World Rust program entrypoint 1",
        "Program log: Hello World Rust program entrypoint 0"] := by
  rfl

/-- Claim C5: replacing the payload of a plain (non-executable,
non-loader-owned) account referenced as the handler's target at index 1 is
visible on the very next execution with no slot advance: payload `[123]`
logs "... entrypoint 123", and after overwriting to `[234]` with no slot
change the next execution logs "... entrypoint 234". -/
theorem non_program_account_mutation_immediately_visible :
    scenario_set_non_program_account =
      .ok ["Program log: Hello World Rust program entrypoint 123",
        "Program log: Hello World Rust program entrypoint 234"] := by
  rfl

/-- Claim C6: whenever the account list has an entry at index 1 whose payload
has a first byte `b`, `process_instruction` returns success with exactly one
log record, "Hello World Rust program entrypoint " followed by `b`'s decimal
value, regardless of the remaining inputs. -/
theorem process_instruction_logs_first_byte (program_id : Nat)
    (accounts : List Account) (instruction_data : List Nat) (a : Account)
    (b : Nat) (h1 : accounts[1]? = some a) (h2 : a.data[0]? = some b) :
    process_instruction program_id accounts instruction_data =
      .ok ["Hello World Rust program entrypoint " ++ toString b] := by
  simp [process_instruction, h1, h2, msgLine]

/-- Witness for claim C6 at a concrete input. -/
theorem process_instruction_logs_first_byte_witness :
    process_instruction 5
        [default_account, { default_account with data := [42, 7] }] [9] =
      .ok ["Hello World Rust program entrypoint " ++ toString 42] :=
  process_instruction_logs_first_byte 5
    [default_account, { default_account with data := [42, 7] }] [9]
    { default_account with data := [42, 7] } 42 rfl rfl

/-- Claim C7: a transaction referencing fewer than 2 accounts fails with an
index-out-of-range abort at the transaction level — no "Hello World" log is
produced — and the handler itself aborts with the same error. -/
theorem too_few_accounts_transaction_fails (ctx : Ctx) (programId : Nat)
    (metas : List Nat) (instructionData : List Nat) (hm : metas.length < 2)
    (hv : visible_program_bytes ctx programId = some helloworld_so) :
    (execute_transaction ctx programId metas instructionData).1 =
        .error .indexOutOfRange ∧
      process_instruction programId (metas.map (resolve_account ctx))
          instructionData = .error .indexOutOfRange := by
  have hnone : (metas.map (resolve_account ctx))[1]? = none := by
    apply List.getElem?_eq_none
    simpa using Nat.lt_succ_iff.mp hm
  have hp : process_instruction programId (metas.map (resolve_account ctx))
      instructionData = .error .indexOutOfRange := by
    simp [process_instruction, hnone]
  exact ⟨by simp [execute_transaction, hv, run_program, hp], hp⟩

/-- Witness for claim C7: the source's one-account transaction against a
deployed copy of this repository's program fails rather than logging. -/
theorem too_few_accounts_transaction_fails_witness :
    (execute_transaction
          (set_account
            (set_account start_with_context 100 (upgradeable_program_account 101))
            101 (program_data_account helloworld_so 0)) 100 [100] []).1 =
        .error .indexOutOfRange ∧
      process_instruction 100
          ([100].map (resolve_account
            (set_account
              (set_account start_with_context 100 (upgradeable_program_account 101))
              101 (program_data_account helloworld_so 0)))) [] =
        .error .indexOutOfRange :=
  too_few_accounts_transaction_fails
    (set_account
      (set_account start_with_context 100 (upgradeable_program_account 101))
      101 (program_data_account helloworld_so 0)) 100 [100] []
    (by decide) (by decide)

/-- Claim C8: the ProgramData payload is the metadata header — recording the
given deployment slot (bytes 4..11, little endian) for the given authority —
followed immediately by the program bytes unmodified: its length is the
header-size constant plus the program bytes' length, its suffix from the
header size on is exactly the program bytes, and the source's
`program_data_account` constructor builds its data this way (with no
authority). -/
theorem encode_program_data_layout (slot : Nat)
    (upgrade_authority_address : Option Nat) (program_bytes : List Nat) :
    (encode_program_data slot upgrade_authority_address program_bytes).length =
        size_of_programdata_metadata + program_bytes.length ∧
      (encode_program_data slot upgrade_authority_address program_bytes).drop
          size_of_programdata_metadata = program_bytes ∧
      ((encode_program_data slot upgrade_authority_address program_bytes).drop
          4).take 8 = u64le slot ∧
      (program_data_account program_bytes slot).data =
        encode_program_data slot none program_bytes := by
  refine ⟨?_, ?_, ?_, rfl⟩
  · simp [encode_program_data, program_data_header_length]
  · rw [encode_program_data,
      List.drop_left' (program_data_header_length slot upgrade_authority_address)]
  · obtain ⟨tail, htail⟩ :
        ∃ t, program_data_header slot upgrade_authority_address =
          [3, 0, 0, 0] ++ (u64le slot ++ t) := ⟨_, rfl⟩
    rw [encode_program_data, htail, List.append_assoc,
      List.drop_left' (show ([3, 0, 0, 0] : List Nat).length = 4 from rfl),
      List.append_assoc]
    exact List.take_left' (u64le_length slot)

/-- Claim C9: with 2 or more accounts but an empty payload on the account at
index 1, the handler aborts with an out-of-range read of byte 0 and the
transaction fails. -/
theorem empty_payload_aborts (program_id : Nat) (accounts : List Account)
    (instruction_data : List Nat) (a : Account) (h1 : accounts[1]? = some a)
    (h2 : a.data = []) :
    process_instruction program_id accounts instruction_data =
      .error .indexOutOfRange := by
  simp [process_instruction, h1, h2]

/-- Witness for claim C9 at a concrete input. -/
theorem empty_payload_aborts_witness :
    process_instruction 0 [default_account, default_account] [] =
      .error .indexOutOfRange :=
  empty_payload_aborts 0 [default_account, default_account] [] default_account
    rfl rfl

/-- Claim C10: any two invocations of `process_instruction` whose accounts at
index 1 carry the same first payload byte produce identical results — the
output does not depend on the program id, the instruction data, the other
accounts, or any later payload byte. -/
theorem output_depends_only_on_first_byte (p1 p2 : Nat)
    (accounts1 accounts2 : List Account) (d1 d2 : List Nat) (a1 a2 : Account)
    (b : Nat) (h1 : accounts1[1]? = some a1) (h2 : accounts2[1]? = some a2)
    (hb1 : a1.data[0]? = some b) (hb2 : a2.data[0]? = some b) :
    process_instruction p1 accounts1 d1 = process_instruction p2 accounts2 d2 := by
  simp [process_instruction, h1, h2, hb1, hb2]

/-- Witness for claim C10: two invocations differing in program id,
instruction data, surrounding accounts and trailing payload bytes, agreeing
only on the first byte of the account at index 1. -/
theorem output_depends_only_on_first_byte_witness :
    process_instruction 7
        [default_account, { default_account with data := [9, 1] }] [5] =
      process_instruction 8
        [{ default_account with data := [3] },
          { default_account with data := [9] }, default_account] [] :=
  output_depends_only_on_first_byte 7 8
    [default_account, { default_account with data := [9, 1] }]
    [{ default_account with data := [3] },
      { default_account with data := [9] }, default_account] [5] []
    { default_account with data := [9, 1] } { default_account with data := [9] }
    9 rfl rfl rfl rfl

end HelloWorld
